import Mathlib

/-!
A shallow embedding of the statistical core of the Data-Stream-Anomaly-Detection
repository (src/main.py) and proofs about it.

Modelling conventions:
* Python floats are idealised as elements of a linear ordered field; the pure
  statistical functions are stated generically and instantiated at the rationals
  (for executable checks) and at the reals (where a square root is needed).
* The numpy mean and std of an empty slice produce the float NaN (with a
  runtime warning), not an exception; NaN is modelled as `Option.none`, a real
  result as `Option.some`.
* The Python slice `data[-w:]` (with a non-negative int `w`) is `lastSlice`:
  the whole list when `w = 0` (since `data[-0:] = data[0:]`), otherwise the last
  `min w (len data)` elements.
* A Python call of a generator function allocates a suspended generator without
  executing the body; the body, including its validation, runs on the first
  `next`. The call is modelled by `simulate_data_stream_call`, the first resume
  of the body by `StreamGen.resume`. The timed production loop after validation
  depends on wall-clock time and randomness and is modelled no further than the
  point where validation has passed.
* The per-tick `update` closure of `detect_anomalies_with_visualization` is
  modelled as a state transformer on the accumulated list of data points,
  returning the new state together with the tuple handed to the presentation
  layer (time index, value, optional z-score, anomaly flag).
-/

namespace AnomalyDetection

/-- The Python trailing slice `data[-window_size:]` for a non-negative
`window_size`: the whole list when `window_size = 0`, otherwise the last
`window_size` elements (clamped to the whole list when `window_size`
exceeds the length). -/
def lastSlice {α : Type} (data : List α) (window_size : ℕ) : List α :=
  if window_size = 0 then data else data.drop (data.length - window_size)

variable {K : Type} [LinearOrderedField K]

/-- `np.mean` on a list of numbers: the arithmetic mean, or `none` (the float
NaN, produced with a runtime warning) on an empty list. It never raises on a
list of numbers. -/
def npMean (l : List K) : Option K :=
  if l = [] then none else some (l.sum / l.length)

/-- The variance computed inside `np.std`: the mean of the squared deviations
from the mean. `none` (NaN) on an empty list. -/
def npVar (l : List K) : Option K :=
  (npMean l).bind fun μ => npMean (l.map fun x => (x - μ) ^ 2)

/-- `np.std` on a list of numbers: the square root of the mean squared
deviation (population convention, dividing by N). `none` (NaN) on an empty
list. -/
noncomputable def npStd (l : List ℝ) : Option ℝ :=
  (npVar l).map Real.sqrt

/-- `moving_average(data, window_size)` from src/main.py: `np.mean` of the
trailing slice `data[-window_size:]`. On a list of numbers `np.mean` never
raises, so the `except` branch returning the fallback `0` is unreachable; an
empty slice yields NaN (`none`). -/
def moving_average (data : List K) (window_size : ℕ) : Option K :=
  npMean (lastSlice data window_size)

/-- `standard_deviation(data, window_size)` from src/main.py: `np.std` of the
trailing slice `data[-window_size:]`. On a list of numbers `np.std` never
raises, so the `except` branch returning the fallback `0` is unreachable; an
empty slice yields NaN (`none`). -/
noncomputable def standard_deviation (data : List ℝ) (window_size : ℕ) : Option ℝ :=
  npStd (lastSlice data window_size)

/-- `z_score(data_point, mean, std_dev)` from src/main.py:
`(data_point - mean) / std_dev if std_dev > 0 else 0`. -/
def z_score (data_point mean std_dev : K) : K :=
  if 0 < std_dev then (data_point - mean) / std_dev else 0

/-- The arithmetic mean of a list, as the specification words it. -/
def arithMean (l : List K) : K := l.sum / l.length

/-- The population standard deviation of a list (dividing by N, not N-1), as
the specification words it. -/
noncomputable def popStdDev (l : List ℝ) : ℝ :=
  Real.sqrt ((l.map fun x => (x - arithMean l) ^ 2).sum / l.length)

/-- A suspended generator produced by calling `simulate_data_stream`: the
arguments are captured, the body has not started executing. -/
structure StreamGen where
  duration : ℚ
  interval : ℚ
deriving DecidableEq

/-- A Python call of the generator function `simulate_data_stream` allocates
the generator without executing its body, so the call itself never raises the
`ValueError`; it always succeeds with the suspended generator. -/
def simulate_data_stream_call (duration interval : ℚ) : Except String StreamGen :=
  .ok ⟨duration, interval⟩

/-- The first resume (`next`) of a `simulate_data_stream` generator runs the
body from the top: the validation `if duration <= 0 or interval <= 0: raise
ValueError(...)` executes before anything is yielded. When validation passes,
the body enters its wall-clock-driven production loop, modelled no further. -/
def StreamGen.resume (g : StreamGen) : Except String Unit :=
  if g.duration ≤ 0 ∨ g.interval ≤ 0 then
    .error ("Duration and interval must be positive values.")
  else
    .ok ()

/-- The call-time validation prefix of `detect_anomalies_with_visualization`
(an ordinary function, not a generator): `if window_size <= 0 or z_threshold
<= 0: raise ValueError(...)` runs at call time, before the GUI is set up or
any data point is pulled. The GUI body after validation is out of scope. -/
def detect_anomalies_with_visualization_check (window_size : ℤ) (z_threshold : ℚ) :
    Except String Unit :=
  if window_size ≤ 0 ∨ z_threshold ≤ 0 then
    .error ("Window size and Z-score threshold must be positive values.")
  else
    .ok ()

/-- The per-tick tuple the `update` closure hands to the presentation layer:
time index, value, z-score (`none` = absent, displayed as N/A during the
initial fill), and the anomaly flag. -/
structure TickOutput where
  frame : ℕ
  value : ℝ
  zscore : Option ℝ
  isAnomaly : Bool

/-- One tick of the `update` closure in src/main.py, with the GUI calls
stripped: record the frame index (the pre-append length), append the new data
point, and once the accumulated history is strictly longer than `window_size`
compute mean, standard deviation and z-score over the trailing window and flag
an anomaly when `abs(z) > z_threshold`; during the initial fill no score is
computed. The history passed to the scorer is non-empty here, so
`moving_average` and `standard_deviation` always return `some`; `getD 0` only
unwraps that value. -/
noncomputable def update (window_size : ℕ) (z_threshold : ℝ)
    (data_points : List ℝ) (data_point : ℝ) : List ℝ × TickOutput :=
  let frame := data_points.length
  let data' := data_points ++ [data_point]
  if data'.length > window_size then
    let mean := (moving_average data' window_size).getD 0
    let std_dev := (standard_deviation data' window_size).getD 0
    let z := z_score data_point mean std_dev
    (data', ⟨frame, data_point, some z, decide (|z| > z_threshold)⟩)
  else
    (data', ⟨frame, data_point, none, false⟩)

/-! Supporting lemmas about the trailing slice and the numpy statistics. -/

theorem lastSlice_eq_drop {α : Type} (data : List α) (w : ℕ) (hw : 0 < w) :
    lastSlice data w = data.drop (data.length - w) := by
  unfold lastSlice
  rw [if_neg hw.ne']

theorem lastSlice_of_whole {α : Type} (data : List α) (w : ℕ)
    (h : w = 0 ∨ data.length < w) : lastSlice data w = data := by
  rcases h with rfl | h
  · simp [lastSlice]
  · have hw : 0 < w := lt_of_le_of_lt (Nat.zero_le _) h
    rw [lastSlice_eq_drop data w hw, Nat.sub_eq_zero_of_le h.le, List.drop_zero]

theorem length_lastSlice {α : Type} (data : List α) (w : ℕ) (hw : 0 < w)
    (hlen : w ≤ data.length) : (lastSlice data w).length = w := by
  rw [lastSlice_eq_drop data w hw, List.length_drop, Nat.sub_sub_self hlen]

theorem lastSlice_ne_nil {α : Type} {data : List α} (hne : data ≠ []) (w : ℕ) :
    lastSlice data w ≠ [] := by
  rcases Nat.eq_zero_or_pos w with rfl | hw
  · simpa [lastSlice] using hne
  · rw [lastSlice_eq_drop data w hw, ← List.length_pos, List.length_drop]
    have hlen : 0 < data.length := List.length_pos.mpr hne
    omega

theorem npMean_of_ne_nil {l : List K} (h : l ≠ []) :
    npMean l = some (l.sum / l.length) := by
  simp [npMean, h]

theorem npVar_of_ne_nil {l : List K} (h : l ≠ []) :
    npVar l =
      some ((l.map fun x => (x - l.sum / (l.length : K)) ^ 2).sum / (l.length : K)) := by
  have hm : (l.map fun x => (x - l.sum / (l.length : K)) ^ 2) ≠ [] := by
    simpa using h
  rw [npVar, npMean_of_ne_nil h]
  simp only [Option.some_bind]
  rw [npMean_of_ne_nil hm, List.length_map]

/-! Claims about the pure statistical functions. -/

/-- C1: for every data point, mean and standard deviation, `z_score` returns
(data_point - mean) / std_dev when std_dev > 0 and returns 0 otherwise; in
particular z_score 10 5 2 = 5/2 and z_score x m 0 = 0 for all x and m. -/
theorem z_score_spec :
    (∀ d m s : ℚ, 0 < s → z_score d m s = (d - m) / s) ∧
    (∀ d m s : ℚ, s ≤ 0 → z_score d m s = 0) ∧
    z_score (10 : ℚ) 5 2 = 5 / 2 ∧
    (∀ x m : ℚ, z_score x m 0 = 0) := by
  refine ⟨fun d m s hs => ?_, fun d m s hs => ?_, ?_, fun x m => ?_⟩
  · rw [z_score, if_pos hs]
  · rw [z_score, if_neg (not_lt.mpr hs)]
  · norm_num [z_score]
  · rw [z_score, if_neg (lt_irrefl 0)]

theorem z_score_spec_witness :
    z_score (10 : ℚ) 5 2 = (10 - 5) / 2 ∧ z_score (3 : ℚ) 7 (-1) = 0 :=
  ⟨z_score_spec.1 10 5 2 (by norm_num), z_score_spec.2.1 3 7 (-1) (by norm_num)⟩

/-- C2: for every non-empty data list and window size between 1 and the length
of the list, `moving_average` returns the arithmetic mean of the last
window_size elements (a trailing slice of length exactly window_size); in
particular moving_average [1,2,3,4,5] 3 = 4. -/
theorem moving_average_spec :
    (∀ (data : List ℚ) (w : ℕ), data ≠ [] → 1 ≤ w → w ≤ data.length →
      (data.drop (data.length - w)).length = w ∧
      moving_average data w = some ((data.drop (data.length - w)).sum / (w : ℚ))) ∧
    moving_average ([1, 2, 3, 4, 5] : List ℚ) 3 = some 4 := by
  constructor
  · intro data w hne h1 h2
    have hw : 0 < w := h1
    have hlen : (data.drop (data.length - w)).length = w := by
      rw [List.length_drop, Nat.sub_sub_self h2]
    refine ⟨hlen, ?_⟩
    have hsne : lastSlice data w ≠ [] := lastSlice_ne_nil hne w
    rw [moving_average, npMean_of_ne_nil hsne, lastSlice_eq_drop data w hw, hlen]
  · simp [moving_average, lastSlice, npMean]
    norm_num

theorem moving_average_spec_witness :
    (([1, 2, 3, 4, 5] : List ℚ).drop 2).length = 3 ∧
    moving_average ([1, 2, 3, 4, 5] : List ℚ) 3 =
      some ((([1, 2, 3, 4, 5] : List ℚ).drop 2).sum / (3 : ℚ)) :=
  moving_average_spec.1 [1, 2, 3, 4, 5] 3 (by simp) (by norm_num) (by simp)

/-- C6 counterexample: on the empty data list both `moving_average` and
`standard_deviation` return NaN (the numpy mean and std of an empty slice,
modelled `none`), not the value 0 the claim states. -/
theorem empty_window_returns_nan_not_zero :
    moving_average ([] : List ℚ) 3 = none ∧
    moving_average ([] : List ℚ) 3 ≠ some 0 ∧
    standard_deviation ([] : List ℝ) 3 = none ∧
    standard_deviation ([] : List ℝ) 3 ≠ some 0 := by
  refine ⟨?_, ?_, ?_, ?_⟩ <;>
    simp [moving_average, standard_deviation, npStd, npVar, npMean, lastSlice]

/-- C6 amended: on an empty window both functions return NaN (`none`) — the
numpy mean and std of an empty slice are NaN with a runtime warning, not an
exception — and, being total, never raise to the caller; the `except` branch
with its 0 fallback is not taken for an empty list of numbers. -/
theorem empty_window_nan :
    ∀ w : ℕ,
      moving_average ([] : List ℚ) w = none ∧
      standard_deviation ([] : List ℝ) w = none := by
  intro w
  have hq : lastSlice ([] : List ℚ) w = [] := by
    unfold lastSlice
    split <;> simp
  have hr : lastSlice ([] : List ℝ) w = [] := by
    unfold lastSlice
    split <;> simp
  constructor
  · rw [moving_average, hq]
    simp [npMean]
  · rw [standard_deviation, hr]
    simp [npStd, npVar, npMean]

/-- C10: for every non-empty data list, calling `moving_average` or
`standard_deviation` with window size 0, or with window size greater than the
length, computes the statistic of the entire list (the trailing slice
degenerates to the whole list) rather than failing or falling back to 0. -/
theorem whole_list_degenerate :
    ∀ (data : List ℝ) (w : ℕ), data ≠ [] → (w = 0 ∨ data.length < w) →
      lastSlice data w = data ∧
      moving_average data w = some (arithMean data) ∧
      standard_deviation data w = some (popStdDev data) := by
  intro data w hne h
  have hs : lastSlice data w = data := lastSlice_of_whole data w h
  refine ⟨hs, ?_, ?_⟩
  · rw [moving_average, hs, npMean_of_ne_nil hne]
    rfl
  · rw [standard_deviation, hs, npStd, npVar_of_ne_nil hne]
    simp only [Option.map_some']
    rfl

theorem whole_list_degenerate_witness :
    lastSlice ([1, 2] : List ℝ) 0 = [1, 2] ∧
    moving_average ([1, 2] : List ℝ) 0 = some (arithMean ([1, 2] : List ℝ)) ∧
    standard_deviation ([1, 2] : List ℝ) 0 = some (popStdDev ([1, 2] : List ℝ)) :=
  whole_list_degenerate [1, 2] 0 (by simp) (Or.inl rfl)

/-- C8: for fixed mean, standard deviation and threshold, the anomaly flag
abs (z_score v mean std_dev) > threshold is monotone in the distance of v from
the mean: moving farther from the mean never turns the flag from true to
false. -/
theorem anomaly_flag_monotone :
    ∀ (mean std_dev threshold v1 v2 : ℚ), |v1 - mean| ≤ |v2 - mean| →
      |z_score v1 mean std_dev| > threshold → |z_score v2 mean std_dev| > threshold := by
  intro m s t v1 v2 hle h1
  by_cases hs : 0 < s
  · have e : ∀ v : ℚ, |z_score v m s| = |v - m| / s := fun v => by
      rw [z_score, if_pos hs, abs_div, abs_of_pos hs]
    rw [e v1] at h1
    rw [e v2]
    exact lt_of_lt_of_le h1 ((div_le_div_iff_of_pos_right hs).mpr hle)
  · rw [z_score, if_neg hs] at h1
    rw [z_score, if_neg hs]
    exact h1

theorem anomaly_flag_monotone_witness :
    |z_score (20 : ℚ) 0 1| > 5 :=
  anomaly_flag_monotone 0 1 5 10 20 (by norm_num) (by norm_num [z_score])

/-- C3: for every non-empty data list and window size between 1 and the length
of the list, `standard_deviation` returns the population standard deviation
(dividing by N, not N-1) of the last window_size elements; in particular
standard_deviation [1,2,3,4,5] 3 = sqrt (2/3), about 0.8165. -/
theorem standard_deviation_spec :
    (∀ (data : List ℝ) (w : ℕ), data ≠ [] → 1 ≤ w → w ≤ data.length →
      standard_deviation data w = some (popStdDev (data.drop (data.length - w)))) ∧
    standard_deviation ([1, 2, 3, 4, 5] : List ℝ) 3 = some (Real.sqrt (2 / 3)) := by
  constructor
  · intro data w hne h1 h2
    have hw : 0 < w := h1
    have hsne : lastSlice data w ≠ [] := lastSlice_ne_nil hne w
    rw [standard_deviation, npStd, npVar_of_ne_nil hsne, lastSlice_eq_drop data w hw]
    simp only [Option.map_some']
    rfl
  · have hslice : lastSlice ([1, 2, 3, 4, 5] : List ℝ) 3 = [3, 4, 5] := by
      simp [lastSlice]
    rw [standard_deviation, npStd, hslice, npVar_of_ne_nil (by simp)]
    simp only [Option.map_some']
    norm_num

theorem standard_deviation_spec_witness :
    standard_deviation ([1, 2, 3, 4, 5] : List ℝ) 3 =
      some (popStdDev (([1, 2, 3, 4, 5] : List ℝ).drop 2)) :=
  standard_deviation_spec.1 [1, 2, 3, 4, 5] 3 (by simp) (by norm_num) (by simp)

/-! Supporting lemmas about one tick of the driver loop. -/

theorem update_score {w : ℕ} {t : ℝ} {h : List ℝ} {d : ℝ}
    (hlen : (h ++ [d]).length > w) :
    update w t h d =
      (h ++ [d],
       ⟨h.length, d,
        some (z_score d ((moving_average (h ++ [d]) w).getD 0)
                        ((standard_deviation (h ++ [d]) w).getD 0)),
        decide (|z_score d ((moving_average (h ++ [d]) w).getD 0)
                          ((standard_deviation (h ++ [d]) w).getD 0)| > t)⟩) := by
  rw [update]
  simp only [if_pos hlen]

theorem update_fill {w : ℕ} {t : ℝ} {h : List ℝ} {d : ℝ}
    (hlen : ¬ (h ++ [d]).length > w) :
    update w t h d = (h ++ [d], ⟨h.length, d, none, false⟩) := by
  rw [update]
  simp only [if_neg hlen]

/-- C4: at every tick at which a score is computed, the anomaly flag is true
exactly when the absolute z-score strictly exceeds the threshold; a z-score
whose absolute value equals the threshold is not flagged. -/
theorem anomaly_iff_abs_gt_threshold :
    ∀ (w : ℕ) (t : ℝ) (h : List ℝ) (d z : ℝ),
      ((update w t h d).2).zscore = some z →
      (((update w t h d).2).isAnomaly = true ↔ |z| > t) ∧
      (|z| = t → ((update w t h d).2).isAnomaly = false) := by
  intro w t h d z hz
  by_cases hlen : (h ++ [d]).length > w
  · rw [update_score hlen] at hz ⊢
    simp only [Option.some.injEq] at hz
    subst hz
    constructor
    · simp
    · intro heq
      simp [heq]
  · rw [update_fill hlen] at hz
    simp at hz

theorem anomaly_iff_abs_gt_threshold_witness :
    (((update 1 5 [(0 : ℝ)] 2).2).isAnomaly = true ↔ |(0 : ℝ)| > 5) ∧
    (|(0 : ℝ)| = 5 → ((update 1 5 [(0 : ℝ)] 2).2).isAnomaly = false) :=
  anomaly_iff_abs_gt_threshold 1 5 [0] 2 0 (by
    rw [update_score (by simp)]
    simp [moving_average, standard_deviation, npStd, npVar, npMean, lastSlice, z_score])

/-- C7: at every tick of the driver loop a z-score (and with it an anomaly
decision) is computed exactly when the accumulated history, after the new
point is appended, is strictly longer than the window size; during the
initial fill the presentation receives an absent z-score and a false flag. -/
theorem score_iff_history_exceeds_window :
    ∀ (w : ℕ) (t : ℝ) (h : List ℝ) (d : ℝ),
      (((update w t h d).2).zscore.isSome ↔ h.length + 1 > w) ∧
      (h.length + 1 ≤ w → (update w t h d).2 = ⟨h.length, d, none, false⟩) := by
  intro w t h d
  by_cases hlen : (h ++ [d]).length > w
  · have hlen' : h.length + 1 > w := by simpa using hlen
    rw [update_score hlen]
    exact ⟨by simpa using hlen', fun hc => absurd hlen' (by omega)⟩
  · have hlen' : ¬ (h.length + 1 > w) := by simpa using hlen
    rw [update_fill hlen]
    exact ⟨by simpa using hlen', fun _ => rfl⟩

theorem score_iff_history_exceeds_window_witness :
    (update 3 1 [(0 : ℝ)] 2).2 = ⟨1, 2, none, false⟩ :=
  (score_iff_history_exceeds_window 3 1 [(0 : ℝ)] 2).2 (by norm_num)

/-- C9: at every tick at which a score is computed, the newest data point has
already been appended to the history, so the scored value is itself an element
of the trailing window from which its mean and standard deviation are
computed. -/
theorem scored_value_in_window :
    ∀ (w : ℕ) (t : ℝ) (h : List ℝ) (d : ℝ), (h ++ [d]).length > w →
      d ∈ lastSlice (h ++ [d]) w ∧
      ((update w t h d).2).zscore =
        some (z_score d ((npMean (lastSlice (h ++ [d]) w)).getD 0)
                        ((npStd (lastSlice (h ++ [d]) w)).getD 0)) := by
  intro w t h d hlen
  constructor
  · rcases Nat.eq_zero_or_pos w with rfl | hw
    · simp [lastSlice]
    · rw [lastSlice_eq_drop _ _ hw, List.drop_append_eq_append_drop]
      have hle : (h ++ [d]).length - w ≤ h.length := by
        simp only [List.length_append, List.length_singleton]
        omega
      have : ((h ++ [d]).length - w) - h.length = 0 := by omega
      rw [this, List.drop_zero]
      simp
  · rw [update_score hlen]
    rfl

theorem scored_value_in_window_witness :
    (2 : ℝ) ∈ lastSlice ([(0 : ℝ)] ++ [2]) 1 ∧
    ((update 1 1 [(0 : ℝ)] 2).2).zscore =
      some (z_score 2 ((npMean (lastSlice ([(0 : ℝ)] ++ [2]) 1)).getD 0)
                      ((npStd (lastSlice ([(0 : ℝ)] ++ [2]) 1)).getD 0)) :=
  scored_value_in_window 1 1 [0] 2 (by simp)

/-- C5 counterexample: `simulate_data_stream` is a generator function, so the
call `simulate_data_stream(0, 1)` succeeds and returns a suspended generator —
it does not fail at call time as the claim states; the ValueError is only
raised when the generator body first runs, on the first next. -/
theorem generator_call_does_not_raise :
    simulate_data_stream_call 0 1 = Except.ok ⟨0, 1⟩ ∧
    StreamGen.resume ⟨0, 1⟩ =
      Except.error ("Duration and interval must be positive values.") := by
  constructor
  · rfl
  · rw [StreamGen.resume, if_pos (Or.inl le_rfl)]

/-- C5 amended: with duration ≤ 0 or interval ≤ 0, calling
`simulate_data_stream` returns a generator without raising and the ValueError
is raised on the first attempt to draw a value, before any value is produced;
calling `detect_anomalies_with_visualization` with window_size ≤ 0 or
z_threshold ≤ 0 raises the ValueError at call time. In both cases no partial
output is produced. -/
theorem invalid_config_fails_before_output :
    (∀ duration interval : ℚ, duration ≤ 0 ∨ interval ≤ 0 →
      simulate_data_stream_call duration interval = Except.ok ⟨duration, interval⟩ ∧
      StreamGen.resume ⟨duration, interval⟩ =
        Except.error ("Duration and interval must be positive values.")) ∧
    (∀ (w : ℤ) (t : ℚ), w ≤ 0 ∨ t ≤ 0 →
      detect_anomalies_with_visualization_check w t =
        Except.error ("Window size and Z-score threshold must be positive values.")) := by
  constructor
  · intro dur itv hinv
    exact ⟨rfl, by rw [StreamGen.resume, if_pos hinv]⟩
  · intro w t hinv
    rw [detect_anomalies_with_visualization_check, if_pos hinv]

theorem invalid_config_fails_before_output_witness :
    (simulate_data_stream_call 0 (-1) = Except.ok ⟨0, -1⟩ ∧
      StreamGen.resume ⟨0, -1⟩ =
        Except.error ("Duration and interval must be positive values.")) ∧
    detect_anomalies_with_visualization_check 0 0 =
      Except.error ("Window size and Z-score threshold must be positive values.") :=
  ⟨invalid_config_fails_before_output.1 0 (-1) (Or.inl le_rfl),
   invalid_config_fails_before_output.2 0 0 (Or.inl le_rfl)⟩

end AnomalyDetection
